import Mathlib

/-!
Verification of the gosem DLMS/COSEM client core against its specification.

Byte sequences are modelled as `List Nat` with every entry one byte
(0..255); Go integer narrowing (`byte(..)`, `uint16(..)`, `uint32`
overflow) is made explicit with `% 256`, `% 65536` and `% 2 ^ 32`.
Fallible Go functions returning `(out, err)` become `Except String`.
Functions that mutate their argument through a pointer return the new
value explicitly.
-/

namespace Gosem

/-- A Go byte slice: a list of bytes, each `< 256`. -/
abbrev Bytes := List Nat

/-- Big-endian bytes of `uint16(n)` (`binary.BigEndian.PutUint16`). -/
def u16be (n : Nat) : Bytes := [n % 65536 / 256, n % 256]

/-- Modelled from the spec: the `Ciphering` block of the association
`Settings` (security bits, 8-byte system title, keys, 32-bit invocation
counter).  The type is declared outside the provided sources; the fields
are exactly the ones the provided sources read and write. -/
structure Ciphering where
  Security : Nat
  SystemTitle : Bytes
  UnicastKey : Bytes
  AuthenticationKey : Bytes
  DedicatedKey : Bytes
  InvocationCounter : Nat
deriving Repr, DecidableEq

/-- Modelled from the spec: the association `Settings` (authentication
mode, optional password, max PDU size, ciphering block). -/
structure Settings where
  Authentication : Nat
  Password : Bytes
  MaxPduSize : Nat
  Ciphering : Ciphering
deriving Repr, DecidableEq

/-- `SecurityNone`: no cryptographic protection (security bits all zero). -/
def SecurityNone : Nat := 0

/-- Modelled from the spec: security bitfield, bit 4 = authentication. -/
def SecurityAuthentication : Nat := 0x10

/-- Modelled from the spec: security bitfield, bit 5 = encryption. -/
def SecurityEncryption : Nat := 0x20

/-- `AuthenticationNone` mechanism id. -/
def AuthenticationNone : Nat := 0

/-- `AuthenticationLow` mechanism id (Low-Level Security). -/
def AuthenticationLow : Nat := 1

/-- Modelled from the spec: the initiate-request APDU tag (the
initiate-request payload starts with tag `0x01`). -/
def TagInitiateRequest : Nat := 0x01

/-- Modelled from the spec: the `glo-initiate-request` outer tag `0x21`
of the GLO-ciphered APDU tag set. -/
def TagGloInitiateRequest : Nat := 0x21

/-- The `Cipher` configuration record built by `generateUserInformation`
and handed to `CipherData`. -/
structure Cipher where
  Tag : Nat
  Security : Nat
  SystemTitle : Bytes
  Key : Bytes
  AuthKey : Bytes
  FrameCounter : Nat
deriving Repr, DecidableEq

/-- The type of `CipherData`.  The AES-128-GCM wrapping itself lives
outside the provided sources, so the embedding passes it as an explicit
function parameter; theorems quantify over it. -/
abbrev CipherFn := Cipher → Bytes → Except String Bytes

/-- A stand-in `CipherData` used to evaluate the embedding on concrete
inputs: it returns the plaintext unchanged.  Every theorem that uses it
also holds for any other `CipherFn`. -/
def cipherId : CipherFn := fun _ data => .ok data

/-- `generateApplicationContextName` (aarq.go): the `[1]`
application-context-name OID, whose final octet is 1 when the security is
`SecurityNone` and no system title is set, 3 otherwise; followed by the
`[6]` calling-AP-title when a system title is set. -/
def generateApplicationContextName (settings : Settings) : Bytes :=
  ([0xA1] ++ [0x09, 0x06, 0x07, 0x60, 0x85, 0x74, 0x05, 0x08, 0x01] ++
    [if settings.Ciphering.Security = SecurityNone ∧
        settings.Ciphering.SystemTitle.length = 0
     then 1 else 3]) ++
  (if settings.Ciphering.SystemTitle.length > 0 then
    [0xA6, 0x0A, 0x04, 0x08] ++ settings.Ciphering.SystemTitle
   else [])

/-- `generateAuthentication` (aarq.go): empty when the authentication
mode is `AuthenticationNone`; otherwise the `[10]` sender
ACSE-requirements, the `[11]` mechanism-name OID ending in the mechanism
id, and the `[12]` calling-authentication-value wrapping the password.
An empty password with authentication enabled is an error. -/
def generateAuthentication (settings : Settings) : Except String Bytes :=
  if settings.Authentication ≠ AuthenticationNone then
    if settings.Password.length = 0 then
      .error "password is required for authentication"
    else
      .ok ([0x8A, 0x02, 0x07, 0x80] ++
        [0x8B, 0x07, 0x60, 0x85, 0x74, 0x05, 0x08, 0x02,
          settings.Authentication % 256] ++
        [0xAC, (2 + settings.Password.length) % 256, 0x80,
          settings.Password.length % 256] ++
        settings.Password)
  else
    .ok []

/-- `getInitiateRequest` (aarq.go): tag, dedicated-key presence,
quality-of-service 0, DLMS version 6, the hard-coded conformance block
`5F 1F 04 00 00 18 1F`, and the 16-bit max PDU size. -/
def getInitiateRequest (settings : Settings) : Bytes :=
  [TagInitiateRequest] ++
  (if settings.Ciphering.Security = SecurityNone ∨
      settings.Ciphering.DedicatedKey.length = 0 then
    [0x00]
   else
    [0x01, settings.Ciphering.DedicatedKey.length % 256] ++
      settings.Ciphering.DedicatedKey) ++
  [0x00, 0x00, 0x06, 0x5F, 0x1F, 0x04, 0x00, 0x00, 0x18, 0x1F] ++
  u16be settings.MaxPduSize

/-- The `Cipher` record `generateUserInformation` builds for
`CipherData` (tag, security, system title, unicast key, auth key and the
pre-increment invocation counter). -/
def userInformationCipherCfg (settings : Settings) : Cipher :=
  { Tag := TagGloInitiateRequest
    Security := settings.Ciphering.Security
    SystemTitle := settings.Ciphering.SystemTitle
    Key := settings.Ciphering.UnicastKey
    AuthKey := settings.Ciphering.AuthenticationKey
    FrameCounter := settings.Ciphering.InvocationCounter }

/-- `generateUserInformation` (aarq.go): wraps the initiate-request in
the `[30]` user-information octet string; when the security is not
`SecurityNone` the initiate-request is first replaced by its
GLO-ciphered form and the invocation counter of the settings (a mutable
`uint32` behind the pointer) is incremented — also when `CipherData`
then fails.  Returns the produced bytes (or the error) together with
the settings as left by the call. -/
def generateUserInformation (cipherData : CipherFn) (settings : Settings) :
    Except String Bytes × Settings :=
  let initiateRequest := getInitiateRequest settings
  if settings.Ciphering.Security ≠ SecurityNone then
    let cfg := userInformationCipherCfg settings
    let settings' := { settings with
      Ciphering := { settings.Ciphering with
        InvocationCounter :=
          (settings.Ciphering.InvocationCounter + 1) % 2 ^ 32 } }
    match cipherData cfg initiateRequest with
    | .error e => (.error e, settings')
    | .ok ciphered =>
        (.ok ([0xBE, (2 + ciphered.length) % 256, 0x04,
          ciphered.length % 256] ++ ciphered), settings')
  else
    (.ok ([0xBE, (2 + initiateRequest.length) % 256, 0x04,
      initiateRequest.length % 256] ++ initiateRequest), settings)

/-- `EncodeAARQ` (aarq.go): the outer `0x60` APDU with a one-byte length
placeholder, the application-context-name, the authentication fields and
the user-information; the placeholder at index 1 is then overwritten
with `byte(len(out) - 2)`.  Returns the bytes (or the first error) and
the settings as left by the call. -/
def EncodeAARQ (cipherData : CipherFn) (settings : Settings) :
    Except String Bytes × Settings :=
  match generateAuthentication settings with
  | .error e => (.error e, settings)
  | .ok auth =>
    match generateUserInformation cipherData settings with
    | (.error e, settings') => (.error e, settings')
    | (.ok userInfo, settings') =>
        let out := [0x60, 0x00] ++ generateApplicationContextName settings ++
          auth ++ userInfo
        (.ok (out.set 1 ((out.length - 2) % 256)), settings')

/-- Modelled from the spec: `NewSettingsWithoutAuthentication` builds
settings with authentication `None`, no password and no ciphering.  The
spec's data-model section says the default max PDU size is 1024, but the
AARQ test vector kept in the sources ends in the bytes `01 00`, which
fixes the constructor's max PDU size to 256; the source test is
followed here. -/
def NewSettingsWithoutAuthentication : Settings :=
  { Authentication := AuthenticationNone
    Password := []
    MaxPduSize := 256
    Ciphering :=
      { Security := SecurityNone
        SystemTitle := []
        UnicastKey := []
        AuthenticationKey := []
        DedicatedKey := []
        InvocationCounter := 0 } }

/-- Modelled from the spec: `NewSettingsWithLowAuthenticationAndCiphering`
builds settings with Low-Level authentication, the given password and the
given ciphering block (default max PDU size as in
`NewSettingsWithoutAuthentication`). -/
def NewSettingsWithLowAuthenticationAndCiphering
    (password : Bytes) (ciphering : Ciphering) : Settings :=
  { Authentication := AuthenticationLow
    Password := password
    MaxPduSize := 256
    Ciphering := ciphering }

/-- The ciphering block of the AARQ scenario-4 test
(`TestEncodeAARQWithLowAuthenticationAndCipher`): GCM security, system
title `4349520000000001`, unicast and authentication key
`00112233445566778899AABBCCDDEEFF`, dedicated key
`E803739DBE338C3A790D8D1B12C63FE2`, invocation counter `0x00000107`. -/
def scenario4Ciphering : Ciphering :=
  { Security := SecurityEncryption + SecurityAuthentication
    SystemTitle := [0x43, 0x49, 0x52, 0x00, 0x00, 0x00, 0x00, 0x01]
    UnicastKey := [0x00, 0x11, 0x22, 0x33, 0x44, 0x55, 0x66, 0x77,
                   0x88, 0x99, 0xAA, 0xBB, 0xCC, 0xDD, 0xEE, 0xFF]
    AuthenticationKey := [0x00, 0x11, 0x22, 0x33, 0x44, 0x55, 0x66, 0x77,
                          0x88, 0x99, 0xAA, 0xBB, 0xCC, 0xDD, 0xEE, 0xFF]
    DedicatedKey := [0xE8, 0x03, 0x73, 0x9D, 0xBE, 0x33, 0x8C, 0x3A,
                     0x79, 0x0D, 0x8D, 0x1B, 0x12, 0xC6, 0x3F, 0xE2]
    InvocationCounter := 0x00000107 }

/-- The settings of the AARQ scenario-4 test: Low authentication with
password `"JuS66BCZ"`, the scenario-4 ciphering block, max PDU size
overridden to 512. -/
def scenario4Settings : Settings :=
  { NewSettingsWithLowAuthenticationAndCiphering
      [0x4A, 0x75, 0x53, 0x36, 0x36, 0x42, 0x43, 0x5A] scenario4Ciphering
    with MaxPduSize := 512 }

/-- The AARQ bytes the no-authentication test expects
(`601DA109060760857405080101BE10040E01000000065F1F040000181F0100`). -/
def expectedAarqNoAuth : Bytes :=
  [0x60, 0x1D, 0xA1, 0x09, 0x06, 0x07, 0x60, 0x85, 0x74, 0x05, 0x08,
   0x01, 0x01, 0xBE, 0x10, 0x04, 0x0E, 0x01, 0x00, 0x00, 0x00,
   0x06, 0x5F, 0x1F, 0x04, 0x00, 0x00, 0x18, 0x1F, 0x01, 0x00]

/-- Settings with `SecurityNone` but a system title set: no cryptographic
protection is enabled, yet `generateApplicationContextName` emits the
ciphered application context (final OID octet 3). -/
def noCipherWithTitleSettings : Settings :=
  { NewSettingsWithoutAuthentication with
    Ciphering := { NewSettingsWithoutAuthentication.Ciphering with
      SystemTitle := [0x43, 0x49, 0x52, 0x00, 0x00, 0x00, 0x00, 0x01] } }

/-- Low-authentication settings whose 260-byte password pushes the AARQ
body past 255 bytes, so the one-byte outer length field wraps. -/
def longPasswordSettings : Settings :=
  { Authentication := AuthenticationLow
    Password := List.replicate 260 0x41
    MaxPduSize := 256
    Ciphering := NewSettingsWithoutAuthentication.Ciphering }

/-- Modelled from the spec: an OBIS code is a six-byte identifier
`A.B.C.D.E.F` (the `Obis` type is declared outside the provided
sources). -/
structure Obis where
  A : Nat
  B : Nat
  C : Nat
  D : Nat
  E : Nat
  F : Nat
deriving Repr, DecidableEq

/-- Modelled from the spec: the binary form of an OBIS code is exactly
its six bytes. -/
def Obis.Bytes (o : Obis) : Bytes :=
  [o.A % 256, o.B % 256, o.C % 256, o.D % 256, o.E % 256, o.F % 256]

/-- `AttributeDescriptor` (attributeDescriptor.go): class id (`uint16`),
OBIS instance, attribute id (`int8`, kept as an integer). -/
structure AttributeDescriptor where
  ClassID : Nat
  InstanceID : Obis
  AttributeID : Int
deriving Repr, DecidableEq

/-- `AttributeDescriptor.Encode` (attributeDescriptor.go): two bytes of
big-endian class id, the six OBIS bytes, one byte of attribute id
(two's complement); the error result is always nil. -/
def AttributeDescriptor.Encode (ad : AttributeDescriptor) :
    Except String Bytes :=
  .ok (u16be ad.ClassID ++ ad.InstanceID.Bytes ++
    [(ad.AttributeID % 256).toNat])

/-- `int8(b)` for a byte `b`: the two's-complement reading. -/
def int8OfByte (b : Nat) : Int :=
  if b % 256 < 128 then (b % 256 : Int) else (b % 256 : Int) - 256

/-- `DecodeAttributeDescriptor` (attributeDescriptor.go): reads from a
copy of the caller's buffer and only commits (advances the caller's
slice past the nine consumed bytes) on success; a buffer shorter than 9
bytes is rejected with the buffer left untouched.  The big-endian
`axdr.DecodeLongUnsigned` class id and the six-byte `DecodeObis`, both
outside the provided sources, are modelled from the spec's wire
formats. -/
def decodeAttributeDescriptorBody (ori : Bytes) :
    Except String AttributeDescriptor × Bytes :=
  match ori with
  | c1 :: c2 :: a :: b :: c :: d :: e :: f :: att :: rest =>
      (.ok { ClassID := (c1 % 256) * 256 + c2 % 256
             InstanceID := ⟨a, b, c, d, e, f⟩
             AttributeID := int8OfByte att }, rest)
  | _ => (.error "byte slice length must be at least 9 bytes", ori)

/-- The length guard of `DecodeAttributeDescriptor`: shorter than nine
bytes is an error with the buffer untouched, otherwise the nine bytes
are consumed by `decodeAttributeDescriptorBody`. -/
def DecodeAttributeDescriptor (ori : Bytes) :
    Except String AttributeDescriptor × Bytes :=
  if ori.length < 9 then
    (.error "byte slice length must be at least 9 bytes", ori)
  else
    decodeAttributeDescriptorBody ori

/-- The dlms error codes exercised by the Set path (`dlms.NewError`
codes; the enumeration is declared outside the provided sources and is
modelled from the spec's error-kind list). -/
inductive ErrorCode where
  | ErrorInvalidParameter
  | ErrorInvalidResponse
  | ErrorSetRejected
  | ErrorSetPartial
  | ErrorCommunicationFailed
deriving Repr, DecidableEq

/-- A dlms error: a tagged code plus a message (`dlms.Error`). -/
structure DlmsError where
  Code : ErrorCode
  Msg : String
deriving Repr, DecidableEq

/-- `dlms.NewError`. -/
def NewError (code : ErrorCode) (msg : String) : DlmsError := ⟨code, msg⟩

/-- One field of the struct handed to
`SetRequestWithStructOfElements`, abstracted to what the loop body
observes of it: the reflective `getAttributeDescriptor` failed (it
reports caller misuse, `ErrorInvalidParameter`), the field was skipped
(no descriptor, or a nil pointer field), or `c.setRequest` ran and
either succeeded or returned an error. -/
inductive FieldStep where
  | descriptorError (msg : String)
  | skipped
  | setOk
  | setFail (e : DlmsError)
deriving Repr, DecidableEq

/-- `%v` of a Go error value: its message, `<nil>` when nil. -/
def errMsgOf : Option DlmsError → String
  | some e => e.Msg
  | none => "<nil>"

/-- The field loop of `SetRequestWithStructOfElements` (part_001): the
`errSet`, `isSomethingDone` and `isSomethingFailed` locals are the
accumulators.  A descriptor error returns at once; a set failure is
tolerated (continuing, recording `errSet` and `isSomethingFailed`) only
when its code is `ErrorSetRejected` and the caller opted in, and
otherwise returns — wrapped as `ErrorSetPartial` when an earlier set
already succeeded; after the loop, a tolerated failure next to a
success is wrapped as `ErrorSetPartial`. -/
def setStructLoop (continueOnSetRejected : Bool) :
    List FieldStep → Option DlmsError → Bool → Bool → Option DlmsError
  | [], errSet, isSomethingDone, isSomethingFailed =>
      if isSomethingFailed && isSomethingDone then
        some (NewError .ErrorSetPartial ("partial set: " ++ errMsgOf errSet))
      else errSet
  | .descriptorError msg :: _, _, _, _ =>
      some (NewError .ErrorInvalidParameter msg)
  | .skipped :: rest, errSet, done, failed =>
      setStructLoop continueOnSetRejected rest errSet done failed
  | .setOk :: rest, errSet, _, failed =>
      setStructLoop continueOnSetRejected rest errSet true failed
  | .setFail e :: rest, _, done, _ =>
      if (e.Code == ErrorCode.ErrorSetRejected) && continueOnSetRejected then
        setStructLoop continueOnSetRejected rest (some e) done true
      else if done then
        some (NewError .ErrorSetPartial ("partial set: " ++ e.Msg))
      else some e

/-- `SetRequestWithStructOfElements` (part_001) with the reflective
iteration over the struct fields abstracted into the list of
`FieldStep`s the loop observes. -/
def SetRequestWithStructOfElements (fields : List FieldStep)
    (continueOnSetRejected : Bool) : Option DlmsError :=
  setStructLoop continueOnSetRejected fields none false false

/-- Whether a (possibly nil) returned error carries the given code. -/
def returnsCode (c : ErrorCode) : Option DlmsError → Bool
  | some e => e.Code == c
  | none => false

/-- `setRequest` and `getAttributeDescriptor` never produce an
`ErrorSetPartial` themselves (only the struct loop creates that code);
field steps taken from the repository satisfy this. -/
def stepNeverSetPartial : FieldStep → Bool
  | .setFail e => !(e.Code == ErrorCode.ErrorSetPartial)
  | _ => true

/-- Spec-side reading (for the amended C3), after a success: without the
opt-in, the loop surfaces `ErrorSetPartial` at the next set failure
reached before any descriptor error. -/
def specFailAfterSuccess : List FieldStep → Bool
  | [] => false
  | .descriptorError _ :: _ => false
  | .skipped :: rest => specFailAfterSuccess rest
  | .setOk :: rest => specFailAfterSuccess rest
  | .setFail _ :: _ => true

/-- Spec-side reading (for the amended C3): without the opt-in, the call
returns `ErrorSetPartial` exactly when the first set failure comes after
at least one successful set, with no descriptor error in between. -/
def specSetPartialNoOptIn : List FieldStep → Bool
  | [] => false
  | .descriptorError _ :: _ => false
  | .skipped :: rest => specSetPartialNoOptIn rest
  | .setOk :: rest => specFailAfterSuccess rest
  | .setFail _ :: _ => false

/-- The A-XDR data tags (`dataTag` in axdr.go). -/
inductive dataTag where
  | TagNull
  | TagArray
  | TagStructure
  | TagBoolean
  | TagBitString
  | TagDoubleLong
  | TagDoubleLongUnsigned
  | TagFloatingPoint
  | TagOctetString
  | TagVisibleString
  | TagUTF8String
  | TagBCD
  | TagInteger
  | TagLong
  | TagUnsigned
  | TagLongUnsigned
  | TagCompactArray
  | TagLong64
  | TagLong64Unsigned
  | TagEnum
  | TagFloat32
  | TagFloat64
  | TagDateTime
  | TagDate
  | TagTime
  | TagDontCare
deriving Repr, DecidableEq

/-- The wire byte of each tag (the numeric `dataTag` constants in
axdr.go). -/
def dataTag.toByte : dataTag → Nat
  | .TagNull => 0
  | .TagArray => 1
  | .TagStructure => 2
  | .TagBoolean => 3
  | .TagBitString => 4
  | .TagDoubleLong => 5
  | .TagDoubleLongUnsigned => 6
  | .TagFloatingPoint => 7
  | .TagOctetString => 9
  | .TagVisibleString => 10
  | .TagUTF8String => 12
  | .TagBCD => 13
  | .TagInteger => 15
  | .TagLong => 16
  | .TagUnsigned => 17
  | .TagLongUnsigned => 18
  | .TagCompactArray => 19
  | .TagLong64 => 20
  | .TagLong64Unsigned => 21
  | .TagEnum => 22
  | .TagFloat32 => 23
  | .TagFloat64 => 24
  | .TagDateTime => 25
  | .TagDate => 26
  | .TagTime => 27
  | .TagDontCare => 255

/-- Modelled from the spec: the fields of a Go `time.Time` that the DLMS
date/time encoders read — year, month, day, DLMS weekday (Monday = 1 …
Sunday = 7) and wall-clock time.  Only UTC values are modelled, as
exercised by the sources: the hundredths, deviation and status bytes
encode as zero. -/
structure GoTime where
  Year : Nat
  Month : Nat
  Day : Nat
  Weekday : Nat
  Hour : Nat
  Minute : Nat
  Second : Nat
deriving Repr, DecidableEq

/-- The zero `GoTime`. -/
def zeroGoTime : GoTime := ⟨0, 0, 0, 0, 0, 0, 0⟩

/-- The possible runtime types of the `interface{}` value of a
`DlmsData` (axdr.go): nil, a `[]*DlmsData`, a Go `bool`, `string`,
`int`, the sized integers, the floats (carried as their IEEE-754 bit
patterns, which is all the byte-level encoder reads), or a `time.Time`.
A `[]*DlmsData` is represented inside the same inductive by the
sequence constructors `nilData` / `consData` (each element a tag and a
payload), so that every function on the tree is plainly structurally
recursive — executable and kernel-reducible; `VDataList` wraps such a
sequence as a payload. -/
inductive DlmsValue where
  | VNil
  | VDataList (elems : DlmsValue)
  | VBool (b : Bool)
  | VString (s : String)
  | VInt (n : Int)
  | VInt8 (n : Int)
  | VInt16 (n : Int)
  | VInt64 (n : Int)
  | VUInt8 (n : Nat)
  | VUInt16 (n : Nat)
  | VUInt32 (n : Nat)
  | VUInt64 (n : Nat)
  | VFloat32 (bits : Nat)
  | VFloat64 (bits : Nat)
  | VTime (t : GoTime)
  | nilData
  | consData (tag : dataTag) (value : DlmsValue) (rest : DlmsValue)
deriving Repr, DecidableEq

/-- `DlmsData` (axdr.go): a tag and an `interface{}` payload. -/
structure DlmsData where
  Tag : dataTag
  Value : DlmsValue
deriving Repr, DecidableEq

/-- The length of a `[]*DlmsData` sequence (`len(data)` in Go). -/
def DlmsValue.seqLength : DlmsValue → Nat
  | .consData _ _ rest => rest.seqLength + 1
  | _ => 0

/-- A `[]*DlmsData` sequence from a Lean list of `DlmsData`. -/
def seqOfList : List DlmsData → DlmsValue
  | [] => .nilData
  | d :: rest => .consData d.Tag d.Value (seqOfList rest)

/-- The observable outcome of `DlmsData.Encode`: the produced bytes, or
a Go panic with its message. -/
inductive EncodeResult where
  | ok (bytes : Bytes)
  | panicked (msg : String)
deriving Repr, DecidableEq

/-- Big-endian bytes of `uint32(n)`. -/
def u32be (n : Nat) : Bytes :=
  [n / 2 ^ 24 % 256, n / 2 ^ 16 % 256, n / 2 ^ 8 % 256, n % 256]

/-- Big-endian bytes of `uint64(n)`. -/
def u64be (n : Nat) : Bytes :=
  [n / 2 ^ 56 % 256, n / 2 ^ 48 % 256, n / 2 ^ 40 % 256, n / 2 ^ 32 % 256,
   n / 2 ^ 24 % 256, n / 2 ^ 16 % 256, n / 2 ^ 8 % 256, n % 256]

/-- The byte of `int8(n)` (two's complement). -/
def intByte (n : Int) : Nat := (n % 256).toNat

/-- Big-endian two's-complement bytes of `int16(n)`. -/
def i16be (n : Int) : Bytes := u16be (n % 2 ^ 16).toNat

/-- Big-endian two's-complement bytes of `int32(n)` (the Go `int`
payload of DOUBLE_LONG is truncated to 32 bits). -/
def i32be (n : Int) : Bytes := u32be (n % 2 ^ 32).toNat

/-- Big-endian two's-complement bytes of `int64(n)`. -/
def i64be (n : Int) : Bytes := u64be (n % 2 ^ 64).toNat

/-- Modelled from the spec: the A-XDR length prefix (`EncodeLength`,
outside the provided sources) — one byte below `0x80`, otherwise
`0x80 | n` followed by the `n` big-endian bytes of the length in the
shortest form with `n ≤ 4`; larger values are an error. -/
def EncodeLength (n : Nat) : Except String Bytes :=
  if n < 0x80 then .ok [n]
  else if n < 0x100 then .ok [0x81, n]
  else if n < 0x10000 then .ok ([0x82] ++ u16be n)
  else if n < 0x1000000 then
    .ok [0x83, n / 2 ^ 16 % 256, n / 2 ^ 8 % 256, n % 256]
  else if n < 0x100000000 then .ok ([0x84] ++ u32be n)
  else .error "value cannot be encoded in a length of at most 4 bytes"

/-- MSB-first bit packing for BIT_STRING: `acc` holds the `k` bits
accumulated so far; a trailing partial byte is zero-padded. -/
def packBitsAux : List Bool → Nat → Nat → Bytes
  | [], _, 0 => []
  | [], acc, k => [acc * 2 ^ (8 - k) % 256]
  | b :: rest, acc, k =>
    let acc' := acc * 2 + (if b then 1 else 0)
    if k = 7 then acc' % 256 :: packBitsAux rest 0 0
    else packBitsAux rest acc' (k + 1)

/-- Modelled from the spec: `EncodeBitString` (outside the provided
sources) packs the `0`/`1` character string into ⌈bits/8⌉ bytes,
MSB-first, zero-padded (characters other than `1` count as `0`). -/
def EncodeBitString (s : String) : Except String Bytes :=
  .ok (packBitsAux (s.toList.map (fun c => c == '1')) 0 0)

/-- The value of a decimal digit character, if it is one. -/
def decDigitVal (c : Char) : Option Nat :=
  if 48 ≤ c.toNat ∧ c.toNat ≤ 57 then some (c.toNat - 48) else none

/-- The value of a hexadecimal digit character, if it is one. -/
def hexDigitVal (c : Char) : Option Nat :=
  if 48 ≤ c.toNat ∧ c.toNat ≤ 57 then some (c.toNat - 48)
  else if 65 ≤ c.toNat ∧ c.toNat ≤ 70 then some (c.toNat - 55)
  else if 97 ≤ c.toNat ∧ c.toNat ≤ 102 then some (c.toNat - 87)
  else none

/-- Split a character list at dots. -/
def splitDot : List Char → List (List Char)
  | [] => [[]]
  | c :: rest =>
    if c = '.' then [] :: splitDot rest
    else
      match splitDot rest with
      | [] => [[c]]
      | part :: parts => (c :: part) :: parts

/-- A non-empty decimal digit string below 256, read left to right. -/
def parseDecCharsAux : List Char → Nat → Option Nat
  | [], acc => some acc
  | c :: rest, acc =>
    match decDigitVal c with
    | some d => parseDecCharsAux rest (acc * 10 + d)
    | none => none

/-- One dotted-decimal OBIS octet. -/
def parseDecByte (cs : List Char) : Option Nat :=
  match cs with
  | [] => none
  | _ =>
    match parseDecCharsAux cs 0 with
    | some v => if v < 256 then some v else none
    | none => none

/-- Pairs of hexadecimal digits to bytes. -/
def hexDecodeChars : List Char → Option Bytes
  | [] => some []
  | c1 :: c2 :: rest =>
    match hexDigitVal c1, hexDigitVal c2, hexDecodeChars rest with
    | some h, some l, some tail => some ((h * 16 + l) :: tail)
    | _, _, _ => none
  | _ => none

/-- Upper-case hexadecimal digit of `n < 16`. -/
def hexDigitChar (n : Nat) : Char :=
  if n < 10 then Char.ofNat (48 + n) else Char.ofNat (55 + n)

/-- The upper-case hexadecimal string of a byte sequence. -/
def hexStringOfBytes (bs : Bytes) : String :=
  String.mk (bs.foldr
    (fun b acc => hexDigitChar (b % 256 / 16) :: hexDigitChar (b % 16) :: acc)
    [])

/-- Modelled from the spec: `EncodeOctetString` (outside the provided
sources) converts the Go string payload to the octet content — a
dotted-decimal string (an OBIS code such as `0.0.1.0.0.255`) becomes
its octets, anything else is read as a hexadecimal string; invalid
input is an error. -/
def EncodeOctetString (s : String) : Except String Bytes :=
  if s.toList.contains '.' then
    match (splitDot s.toList).mapM parseDecByte with
    | some bs => .ok bs
    | none => .error "invalid dotted octet string"
  else
    match hexDecodeChars s.toList with
    | some bs => .ok bs
    | none => .error "invalid hexadecimal octet string"

/-- The 12 DLMS datetime bytes of a (UTC) `GoTime`: year (2 bytes),
month, day, weekday, hour, minute, second, hundredths 0, deviation
`00 00`, status 0. -/
def encodeDateTimeBytes (t : GoTime) : Bytes :=
  [t.Year % 65536 / 256, t.Year % 256, t.Month % 256, t.Day % 256,
   t.Weekday % 256, t.Hour % 256, t.Minute % 256, t.Second % 256,
   0x00, 0x00, 0x00, 0x00]

/-- Modelled from the spec: `EncodeDateTime` (outside the provided
sources) — the 12-byte DLMS datetime. -/
def EncodeDateTime (t : GoTime) : Except String Bytes :=
  .ok (encodeDateTimeBytes t)

/-- Modelled from the spec: `EncodeDate` — the 5-byte DLMS date (year
high and low, month, day, weekday). -/
def EncodeDate (t : GoTime) : Except String Bytes :=
  .ok [t.Year % 65536 / 256, t.Year % 256, t.Month % 256, t.Day % 256,
    t.Weekday % 256]

/-- Modelled from the spec: `EncodeTime` — the 4-byte DLMS time (hour,
minute, second, hundredths). -/
def EncodeTime (t : GoTime) : Except String Bytes :=
  .ok [t.Hour % 256, t.Minute % 256, t.Second % 256, 0x00]

/-- Modelled from the spec: Go `time.Parse` is outside the embedding;
the string payloads the date tags accept are abstracted to the zero
time (in Go a parse failure is likewise discarded, leaving the zero
time).  No claim depends on the parsed value. -/
def parseGoTime (_ : String) : GoTime := zeroGoTime

/-- The encoder of `DlmsData.Encode` and `EncodeArray` (axdr.go),
merged into one structurally recursive function: `encodeSeq ds`
concatenates the encodings of the sequence `ds`.  Each element panics
on a nil value, dispatches on the tag, panics when the payload variant
does not match the tag (the Go format string
`Cannot encode value %v with tag %T` is kept without its
interpolations), and otherwise emits the tag byte, the length prefix
for the length-carrying tags, and the raw value. -/
def encodeSeq : DlmsValue → EncodeResult
  | .consData t v rest =>
    let step : EncodeResult :=
      match t, v with
      | _, .VNil => .panicked "Value to encode cannot be nil"
      | .TagNull, _ => .ok [dataTag.TagNull.toByte, 0]
      | .TagArray, .VDataList elems =>
        match encodeSeq elems with
        | .panicked m => .panicked m
        | .ok body =>
          match EncodeLength elems.seqLength with
          | .error m => .panicked m
          | .ok dl => .ok (dataTag.TagArray.toByte :: dl ++ body)
      | .TagStructure, .VDataList elems =>
        match encodeSeq elems with
        | .panicked m => .panicked m
        | .ok body =>
          match EncodeLength elems.seqLength with
          | .error m => .panicked m
          | .ok dl => .ok (dataTag.TagStructure.toByte :: dl ++ body)
      | .TagBoolean, .VBool b =>
        .ok [dataTag.TagBoolean.toByte, if b then 0xFF else 0x00]
      | .TagBitString, .VString s =>
        match EncodeBitString s with
        | .error m => .panicked m
        | .ok rv =>
          match EncodeLength s.length with
          | .error m => .panicked m
          | .ok dl => .ok (dataTag.TagBitString.toByte :: dl ++ rv)
      | .TagDoubleLong, .VInt n => .ok (dataTag.TagDoubleLong.toByte :: i32be n)
      | .TagDoubleLongUnsigned, .VUInt32 n =>
        .ok (dataTag.TagDoubleLongUnsigned.toByte :: u32be n)
      | .TagFloatingPoint, .VFloat32 bits =>
        .ok (dataTag.TagFloatingPoint.toByte :: u32be bits)
      | .TagOctetString, .VString s =>
        match EncodeOctetString s with
        | .error m => .panicked m
        | .ok rv =>
          match EncodeLength rv.length with
          | .error m => .panicked m
          | .ok dl => .ok (dataTag.TagOctetString.toByte :: dl ++ rv)
      | .TagVisibleString, .VString s =>
        match EncodeOctetString s with
        | .error m => .panicked m
        | .ok rv =>
          match EncodeLength rv.length with
          | .error m => .panicked m
          | .ok dl => .ok (dataTag.TagVisibleString.toByte :: dl ++ rv)
      | .TagUTF8String, .VString s =>
        match EncodeOctetString s with
        | .error m => .panicked m
        | .ok rv =>
          match EncodeLength rv.length with
          | .error m => .panicked m
          | .ok dl => .ok (dataTag.TagUTF8String.toByte :: dl ++ rv)
      | .TagBCD, .VInt8 n => .ok [dataTag.TagBCD.toByte, intByte n]
      | .TagInteger, .VInt8 n => .ok [dataTag.TagInteger.toByte, intByte n]
      | .TagLong, .VInt16 n => .ok (dataTag.TagLong.toByte :: i16be n)
      | .TagUnsigned, .VUInt8 n => .ok [dataTag.TagUnsigned.toByte, n % 256]
      | .TagLongUnsigned, .VUInt16 n =>
        .ok (dataTag.TagLongUnsigned.toByte :: u16be n)
      | .TagCompactArray, _ => .panicked "Not yet implemented"
      | .TagLong64, .VInt64 n => .ok (dataTag.TagLong64.toByte :: i64be n)
      | .TagLong64Unsigned, .VUInt64 n =>
        .ok (dataTag.TagLong64Unsigned.toByte :: u64be n)
      | .TagEnum, .VUInt8 n => .ok [dataTag.TagEnum.toByte, n % 256]
      | .TagFloat32, .VFloat32 bits =>
        .ok (dataTag.TagFloat32.toByte :: u32be bits)
      | .TagFloat64, .VFloat64 bits =>
        .ok (dataTag.TagFloat64.toByte :: u64be bits)
      | .TagDateTime, .VTime tm =>
        match EncodeDateTime tm with
        | .error m => .panicked m
        | .ok rv => .ok (dataTag.TagDateTime.toByte :: rv)
      | .TagDateTime, .VString s =>
        match EncodeDateTime (parseGoTime s) with
        | .error m => .panicked m
        | .ok rv => .ok (dataTag.TagDateTime.toByte :: rv)
      | .TagDate, .VTime tm =>
        match EncodeDate tm with
        | .error m => .panicked m
        | .ok rv => .ok (dataTag.TagDate.toByte :: rv)
      | .TagDate, .VString s =>
        match EncodeDate (parseGoTime s) with
        | .error m => .panicked m
        | .ok rv => .ok (dataTag.TagDate.toByte :: rv)
      | .TagTime, .VTime tm =>
        match EncodeTime tm with
        | .error m => .panicked m
        | .ok rv => .ok (dataTag.TagTime.toByte :: rv)
      | .TagTime, .VString s =>
        match EncodeTime (parseGoTime s) with
        | .error m => .panicked m
        | .ok rv => .ok (dataTag.TagTime.toByte :: rv)
      | .TagDontCare, _ => .ok [dataTag.TagDontCare.toByte, 0]
      | _, _ => .panicked "Cannot encode value with tag"
    match step with
    | .panicked m => .panicked m
    | .ok b =>
      match encodeSeq rest with
      | .panicked m => .panicked m
      | .ok bs => .ok (b ++ bs)
  | _ => .ok []

/-- `DlmsData.Encode` (axdr.go): the encoding of the one tagged
value. -/
def DlmsData.Encode (d : DlmsData) : EncodeResult :=
  encodeSeq (.consData d.Tag d.Value .nilData)

/-- Which payload variant each tag's type assertion in `DlmsData.Encode`
accepts (the `ok` of the Go type switch): a nil value matches nothing,
`TagNull` and `TagDontCare` accept any non-nil value (their branches
read no payload), `TagCompactArray` accepts nothing (its branch panics
unconditionally), and the three date tags accept both a `time.Time` and
a `string`. -/
def tagMatches : dataTag → DlmsValue → Bool
  | _, .VNil => false
  | .TagNull, _ => true
  | .TagDontCare, _ => true
  | .TagArray, .VDataList _ => true
  | .TagStructure, .VDataList _ => true
  | .TagBoolean, .VBool _ => true
  | .TagBitString, .VString _ => true
  | .TagOctetString, .VString _ => true
  | .TagVisibleString, .VString _ => true
  | .TagUTF8String, .VString _ => true
  | .TagDoubleLong, .VInt _ => true
  | .TagDoubleLongUnsigned, .VUInt32 _ => true
  | .TagFloatingPoint, .VFloat32 _ => true
  | .TagBCD, .VInt8 _ => true
  | .TagInteger, .VInt8 _ => true
  | .TagLong, .VInt16 _ => true
  | .TagUnsigned, .VUInt8 _ => true
  | .TagLongUnsigned, .VUInt16 _ => true
  | .TagLong64, .VInt64 _ => true
  | .TagLong64Unsigned, .VUInt64 _ => true
  | .TagEnum, .VUInt8 _ => true
  | .TagFloat32, .VFloat32 _ => true
  | .TagFloat64, .VFloat64 _ => true
  | .TagDateTime, .VTime _ => true
  | .TagDateTime, .VString _ => true
  | .TagDate, .VTime _ => true
  | .TagDate, .VString _ => true
  | .TagTime, .VTime _ => true
  | .TagTime, .VString _ => true
  | _, _ => false

/-- Modelled from the spec: the Range selective-access selector id. -/
def AccessSelectorRange : Nat := 1

/-- Modelled from the spec: the Entry selective-access selector id. -/
def AccessSelectorEntry : Nat := 2

/-- Modelled from the spec: a selective-access descriptor — the
selector id and the A-XDR access-parameter value (the
`SelectiveAccessDescriptor` type lives outside the provided
sources). -/
structure SelectiveAccessDescriptor where
  AccessSelector : Nat
  AccessParameter : DlmsData
deriving Repr, DecidableEq

/-- Modelled from the spec: `CreateSelectiveAccessDescriptor` with the
Entry selector and a `[]uint32` of from/to entries — the access
parameter is the structure of from-entry and to-entry
(double-long-unsigned) and from/to selected values (long-unsigned,
zero). -/
def CreateSelectiveAccessDescriptorEntry (vr : List Nat) :
    SelectiveAccessDescriptor :=
  { AccessSelector := AccessSelectorEntry
    AccessParameter := ⟨.TagStructure, .VDataList (seqOfList
      [⟨.TagDoubleLongUnsigned, .VUInt32 (vr.getD 0 0)⟩,
       ⟨.TagDoubleLongUnsigned, .VUInt32 (vr.getD 1 0)⟩,
       ⟨.TagLongUnsigned, .VUInt16 0⟩,
       ⟨.TagLongUnsigned, .VUInt16 0⟩])⟩ }

/-- Modelled from the spec: `CreateSelectiveAccessDescriptor` with the
Range selector and a `[]time.Time` of from/to instants — the access
parameter is the structure of the restricting object (class 8, the
clock, OBIS `0.0.1.0.0.255`, attribute 2, data index 0), the two
instants as 12-byte-datetime octet strings, and an empty
selected-values array. -/
def CreateSelectiveAccessDescriptorRange (vr : List GoTime) :
    SelectiveAccessDescriptor :=
  { AccessSelector := AccessSelectorRange
    AccessParameter := ⟨.TagStructure, .VDataList (seqOfList
      [⟨.TagStructure, .VDataList (seqOfList
        [⟨.TagLongUnsigned, .VUInt16 8⟩,
         ⟨.TagOctetString, .VString "0.0.1.0.0.255"⟩,
         ⟨.TagInteger, .VInt8 2⟩,
         ⟨.TagLongUnsigned, .VUInt16 0⟩])⟩,
       ⟨.TagOctetString, .VString
         (hexStringOfBytes (encodeDateTimeBytes (vr.getD 0 zeroGoTime)))⟩,
       ⟨.TagOctetString, .VString
         (hexStringOfBytes (encodeDateTimeBytes (vr.getD 1 zeroGoTime)))⟩,
       ⟨.TagArray, .VDataList (seqOfList [])⟩])⟩ }

/-- Modelled from the spec: `SelectiveAccessDescriptor.Encode` — the
selector byte followed by the A-XDR encoding of the access parameter
(an encoder panic surfaces as the error result). -/
def SelectiveAccessDescriptor.Encode (sad : SelectiveAccessDescriptor) :
    Except String Bytes :=
  match sad.AccessParameter.Encode with
  | .ok b => .ok (sad.AccessSelector % 256 :: b)
  | .panicked m => .error m

/-- Big-endian accumulation of `n` extended-length bytes. -/
def takeBEAux : Nat → Nat → Bytes → Except String (Nat × Bytes)
  | 0, acc, rest => .ok (acc, rest)
  | _ + 1, _, [] => .error "Truncated"
  | n + 1, acc, b :: rest => takeBEAux n (acc * 256 + b % 256) rest

/-- Modelled from the spec: the A-XDR length-prefix decoder — one byte
below `0x80`, otherwise `0x80 | n` with `1 ≤ n ≤ 4` big-endian bytes
following. -/
def DecodeLength : Bytes → Except String (Nat × Bytes)
  | [] => .error "Truncated"
  | b :: rest =>
    if b < 0x80 then .ok (b, rest)
    else if b - 0x80 = 0 ∨ 4 < b - 0x80 then .error "LengthOverflow"
    else takeBEAux (b - 0x80) 0 rest

/-- Take exactly `n` bytes from the front. -/
def readN : Nat → Bytes → Except String (Bytes × Bytes)
  | 0, rest => .ok ([], rest)
  | _ + 1, [] => .error "Truncated"
  | n + 1, b :: rest =>
    match readN n rest with
    | .ok (xs, r) => .ok (b :: xs, r)
    | .error e => .error e

/-- The unsigned big-endian value of a byte sequence. -/
def beNat (bs : Bytes) : Nat := bs.foldl (fun acc b => acc * 256 + b % 256) 0

/-- The signed (two's-complement) big-endian value of a byte
sequence. -/
def beInt (bs : Bytes) : Int :=
  let v := beNat bs
  if v < 2 ^ (8 * bs.length - 1) then (v : Int)
  else (v : Int) - 2 ^ (8 * bs.length)

/-- The tag of a wire tag byte the decoder knows (only applied to known
bytes). -/
def tagOfByte (t : Nat) : dataTag :=
  if t = 1 then .TagArray
  else if t = 2 then .TagStructure
  else if t = 3 then .TagBoolean
  else if t = 4 then .TagBitString
  else if t = 5 then .TagDoubleLong
  else if t = 6 then .TagDoubleLongUnsigned
  else if t = 7 then .TagFloatingPoint
  else if t = 9 then .TagOctetString
  else if t = 10 then .TagVisibleString
  else if t = 12 then .TagUTF8String
  else if t = 13 then .TagBCD
  else if t = 15 then .TagInteger
  else if t = 16 then .TagLong
  else if t = 17 then .TagUnsigned
  else if t = 18 then .TagLongUnsigned
  else if t = 20 then .TagLong64
  else if t = 21 then .TagLong64Unsigned
  else if t = 22 then .TagEnum
  else if t = 23 then .TagFloat32
  else if t = 24 then .TagFloat64
  else if t = 25 then .TagDateTime
  else if t = 26 then .TagDate
  else if t = 27 then .TagTime
  else .TagNull

/-- One fixed-width decoded value. -/
def decodeFixed (width : Nat) (tag : dataTag) (mkv : Bytes → DlmsValue)
    (rest : Bytes) : Except String (DlmsData × Bytes) :=
  match readN width rest with
  | .error e => .error e
  | .ok (bs, r) => .ok (⟨tag, mkv bs⟩, r)

/-- Modelled from the spec: the A-XDR decoder (outside the provided
sources), merged into one structurally recursive function on a fuel
argument that every recursive call decrements (`decodeDlmsData` hands
it one more than the buffer length, which suffices since every decoded
value consumes at least one byte): `decodeMany fuel count buf` decodes
`count` consecutive tagged values into a `[]*DlmsData` sequence.  Tag
byte, then the length prefix for the length-carrying tags (BIT_STRING
lengths count bits) and a payload of the width the tag fixes;
ARRAY / STRUCTURE recurse; BOOLEAN accepts only `0x00` / `0xFF`; NULL
consumes one payload byte, mirroring the encoder in the sources, which
emits `00 00`; tag 19 (COMPACT_ARRAY, unimplemented in the sources)
and tag bytes outside the table — among them `0xFF`, which only the
encoder handles, as the poisoned-buffer decode test in the sources
requires — are errors.  String-carrying payloads come back as
hexadecimal strings. -/
def decodeMany : Nat → Nat → Bytes → Except String (DlmsValue × Bytes)
  | 0, _, _ => .error "decode recursion limit reached"
  | _ + 1, 0, buf => .ok (.nilData, buf)
  | fuel + 1, count + 1, buf =>
    match buf with
    | [] => .error "Truncated"
    | t :: rest =>
      let step : Except String (DlmsData × Bytes) :=
        if t = 0 then
          match rest with
          | b :: r => .ok (⟨.TagNull, .VUInt8 (b % 256)⟩, r)
          | [] => .error "Truncated"
        else if t = 1 ∨ t = 2 then
          match DecodeLength rest with
          | .error e => .error e
          | .ok (len, r) =>
            match decodeMany fuel len r with
            | .error e => .error e
            | .ok (elems, r') =>
              .ok (⟨if t = 1 then .TagArray else .TagStructure,
                .VDataList elems⟩, r')
        else if t = 3 then
          match rest with
          | b :: r =>
            if b = 0 then .ok (⟨.TagBoolean, .VBool false⟩, r)
            else if b = 0xFF then .ok (⟨.TagBoolean, .VBool true⟩, r)
            else .error "InvalidBoolean"
          | [] => .error "Truncated"
        else if t = 4 ∨ t = 9 ∨ t = 10 ∨ t = 12 then
          match DecodeLength rest with
          | .error e => .error e
          | .ok (len, r) =>
            match readN (if t = 4 then (len + 7) / 8 else len) r with
            | .error e => .error e
            | .ok (bs, r') =>
              .ok (⟨tagOfByte t, .VString (hexStringOfBytes bs)⟩, r')
        else if t = 5 then
          decodeFixed 4 .TagDoubleLong (fun bs => .VInt (beInt bs)) rest
        else if t = 6 then
          decodeFixed 4 .TagDoubleLongUnsigned (fun bs => .VUInt32 (beNat bs))
            rest
        else if t = 7 then
          decodeFixed 4 .TagFloatingPoint (fun bs => .VFloat32 (beNat bs)) rest
        else if t = 13 then
          decodeFixed 1 .TagBCD (fun bs => .VInt8 (beInt bs)) rest
        else if t = 15 then
          decodeFixed 1 .TagInteger (fun bs => .VInt8 (beInt bs)) rest
        else if t = 16 then
          decodeFixed 2 .TagLong (fun bs => .VInt16 (beInt bs)) rest
        else if t = 17 then
          decodeFixed 1 .TagUnsigned (fun bs => .VUInt8 (beNat bs)) rest
        else if t = 18 then
          decodeFixed 2 .TagLongUnsigned (fun bs => .VUInt16 (beNat bs)) rest
        else if t = 20 then
          decodeFixed 8 .TagLong64 (fun bs => .VInt64 (beInt bs)) rest
        else if t = 21 then
          decodeFixed 8 .TagLong64Unsigned (fun bs => .VUInt64 (beNat bs)) rest
        else if t = 22 then
          decodeFixed 1 .TagEnum (fun bs => .VUInt8 (beNat bs)) rest
        else if t = 23 then
          decodeFixed 4 .TagFloat32 (fun bs => .VFloat32 (beNat bs)) rest
        else if t = 24 then
          decodeFixed 8 .TagFloat64 (fun bs => .VFloat64 (beNat bs)) rest
        else if t = 25 then
          decodeFixed 12 .TagDateTime
            (fun bs => .VString (hexStringOfBytes bs)) rest
        else if t = 26 then
          decodeFixed 5 .TagDate (fun bs => .VString (hexStringOfBytes bs))
            rest
        else if t = 27 then
          decodeFixed 4 .TagTime (fun bs => .VString (hexStringOfBytes bs))
            rest
        else if t = 19 then .error "CompactArray is not implemented"
        else .error "UnknownTag"
      match step with
      | .error e => .error e
      | .ok (d, r') =>
        match decodeMany fuel count r' with
        | .error e => .error e
        | .ok (ds, r'') => .ok (.consData d.Tag d.Value ds, r'')

/-- Decode exactly one A-XDR value (`decoder.Decode`). -/
def decodeDlmsData (buf : Bytes) : Except String (DlmsData × Bytes) :=
  match decodeMany (buf.length + 1) 1 buf with
  | .error e => .error e
  | .ok (.consData t v _, r) => .ok (⟨t, v⟩, r)
  | .ok (_, _) => .error "expected one decoded value"

/-- Modelled from the spec: `DecodeSelectiveAccessDescriptor` — reads
the selector byte and one A-XDR value from a copy of the caller's
buffer and commits (advancing the caller's slice past the consumed
bytes) only on success; on any failure the returned buffer is the
original one, at its original position and length. -/
def DecodeSelectiveAccessDescriptor (ori : Bytes) :
    Except String SelectiveAccessDescriptor × Bytes :=
  match ori with
  | [] => (.error "Truncated", ori)
  | selector :: rest =>
    match decodeDlmsData rest with
    | .error e => (.error e, selector :: rest)
    | .ok (d, remaining) => (.ok ⟨selector % 256, d⟩, remaining)

/-- The poisoned entry buffer of the decode-failure test in the
sources: byte 13 of the valid entry descriptor replaced by `0xFF`. -/
def poisonedEntryBuffer : Bytes :=
  [2, 2, 4, 6, 0, 0, 0, 0, 6, 0, 0, 0, 5, 255, 0, 0, 18, 0, 0]

/-- The expected Entry-descriptor encoding
(`02 02 04 06 00 00 00 00 06 00 00 00 05 12 00 00 12 00 00`). -/
def expectedEntryBytes : Bytes :=
  [2, 2, 4, 6, 0, 0, 0, 0, 6, 0, 0, 0, 5, 18, 0, 0, 18, 0, 0]

/-- The expected Range-descriptor encoding for
2020-01-01 10:00:00 UTC … 2020-01-01 11:00:00 UTC. -/
def expectedRangeBytes : Bytes :=
  [1, 2, 4, 2, 4, 18, 0, 8, 9, 6, 0, 0, 1, 0, 0, 255, 15, 2, 18, 0, 0,
   9, 12, 7, 228, 1, 1, 3, 10, 0, 0, 0, 0, 0, 0,
   9, 12, 7, 228, 1, 1, 3, 11, 0, 0, 0, 0, 0, 0, 1, 0]

end Gosem

namespace Gosem

/-- Helper: a successful `EncodeAARQ` output always carries
`byte(len(out) - 2)` at index 1 — the output is some list of the form
`0x60 :: placeholder :: rest` whose index 1 was overwritten with
`(length - 2) % 256`. -/
theorem encodeAARQ_ok_length_byte (cf : CipherFn) (s : Settings)
    (out : Bytes) (s' : Settings) (h : EncodeAARQ cf s = (.ok out, s')) :
    out.getD 1 0 = (out.length - 2) % 256 := by
  unfold EncodeAARQ at h
  cases ha : generateAuthentication s with
  | error e => rw [ha] at h; exact absurd (congrArg Prod.fst h) (by simp)
  | ok auth =>
    rw [ha] at h
    rcases hu : generateUserInformation cf s with ⟨ui, s₂⟩
    rw [hu] at h
    cases ui with
    | error e => exact absurd (congrArg Prod.fst h) (by simp)
    | ok userInfo =>
      simp only at h
      obtain ⟨h1, _⟩ := Prod.mk.inj h
      obtain rfl := (Except.ok.inj h1).symm
      rfl

/-- Helper: with ciphering enabled, a successful `EncodeAARQ` increments
the invocation counter by exactly one (as a `uint32`) and its output
ends with the user-information field wrapping the GLO-ciphered
initiate-request produced by the cipher function. -/
theorem encodeAARQ_ciphered_aux (cf : CipherFn) (s : Settings)
    (out : Bytes) (s' : Settings) (hsec : s.Ciphering.Security ≠ SecurityNone)
    (h : EncodeAARQ cf s = (.ok out, s')) :
    s'.Ciphering.InvocationCounter =
      (s.Ciphering.InvocationCounter + 1) % 2 ^ 32 ∧
    ∃ ciphered head,
      cf (userInformationCipherCfg s) (getInitiateRequest s) = .ok ciphered ∧
      out = head ++ [0xBE, (2 + ciphered.length) % 256, 0x04,
        ciphered.length % 256] ++ ciphered := by
  unfold EncodeAARQ at h
  cases ha : generateAuthentication s with
  | error e => rw [ha] at h; exact absurd (congrArg Prod.fst h) (by simp)
  | ok auth =>
    rw [ha] at h
    unfold generateUserInformation at h
    rw [if_pos hsec] at h
    cases hc : cf (userInformationCipherCfg s) (getInitiateRequest s) with
    | error e => simp only [hc] at h; exact absurd (congrArg Prod.fst h) (by simp)
    | ok ciphered =>
      simp only [hc] at h
      obtain ⟨h1, h2⟩ := Prod.mk.inj h
      obtain rfl := (Except.ok.inj h1).symm
      obtain rfl := h2
      refine ⟨rfl, ciphered,
        0x60 :: (([0x60, 0x00] ++ generateApplicationContextName s ++ auth ++
          ([0xBE, (2 + ciphered.length) % 256, 0x04, ciphered.length % 256] ++
            ciphered)).length - 2) % 256 ::
          (generateApplicationContextName s ++ auth), rfl, ?_⟩
      simp [List.set, List.append_assoc]

/-- C1: with ciphering enabled (`Ciphering.Security ≠ SecurityNone`), a
successful `EncodeAARQ` puts the GLO-ciphered initiate-request — the
cipher function applied to the plaintext `getInitiateRequest` — into the
`[30]` user-information field at the end of the output, and increments
`Ciphering.InvocationCounter` by exactly one (as a `uint32`); in
particular, encoding the scenario-4 AARQ (Low authentication, GCM
ciphering, counter `0x00000107`) leaves the counter at `0x00000108`.
Stated for every cipher function, since `CipherData` lives outside the
provided sources. -/
theorem encodeAARQ_ciphered_replaces_initiateRequest_and_increments_counter :
    (∀ (cf : CipherFn) (s : Settings) (out : Bytes) (s' : Settings),
      s.Ciphering.Security ≠ SecurityNone →
      EncodeAARQ cf s = (.ok out, s') →
      s'.Ciphering.InvocationCounter =
        (s.Ciphering.InvocationCounter + 1) % 2 ^ 32 ∧
      ∃ ciphered head,
        cf (userInformationCipherCfg s) (getInitiateRequest s) = .ok ciphered ∧
        out = head ++ [0xBE, (2 + ciphered.length) % 256, 0x04,
          ciphered.length % 256] ++ ciphered) ∧
    (∀ (cf : CipherFn) (out : Bytes) (s' : Settings),
      EncodeAARQ cf scenario4Settings = (.ok out, s') →
      s'.Ciphering.InvocationCounter = 0x00000108) := by
  refine ⟨fun cf s out s' hsec h => encodeAARQ_ciphered_aux cf s out s' hsec h,
    fun cf out s' h => ?_⟩
  have hc := (encodeAARQ_ciphered_aux cf scenario4Settings out s' (by decide) h).1
  rw [hc]; decide

/-- C1 witness: the scenario-4 settings are ciphered, and encoding them
(with the identity stand-in for the external `CipherData`) succeeds and
leaves the invocation counter incremented by one, at `0x00000108`. -/
theorem encodeAARQ_ciphered_counter_witness :
    scenario4Settings.Ciphering.Security ≠ SecurityNone ∧
    ∃ out s', EncodeAARQ cipherId scenario4Settings = (.ok out, s') ∧
      s'.Ciphering.InvocationCounter =
        (scenario4Settings.Ciphering.InvocationCounter + 1) % 2 ^ 32 ∧
      s'.Ciphering.InvocationCounter = 0x00000108 :=
  ⟨by decide, _, _, rfl,
    (encodeAARQ_ciphered_replaces_initiateRequest_and_increments_counter.1
      cipherId scenario4Settings _ _ (by decide) rfl).1,
    encodeAARQ_ciphered_replaces_initiateRequest_and_increments_counter.2
      cipherId _ _ rfl⟩

/-- C2 counterexample: with authentication `None`, no system title and
max PDU size 1024 — the settings the claim describes — `EncodeAARQ` does
not return the claimed bytes (the encoded max PDU size is `04 00`, not
the `01 00` the claimed byte list ends in). -/
theorem encodeAARQ_noAuth_claimed_pdu1024_bytes_false :
    (EncodeAARQ cipherId
      { NewSettingsWithoutAuthentication with MaxPduSize := 1024 }).1 ≠
      Except.ok expectedAarqNoAuth :=
  fun h => absurd (Except.ok.inj h) (by decide)

/-- C2 (amended): `NewSettingsWithoutAuthentication` — authentication
`None`, no system title, max PDU size 256 — encodes, for every cipher
function, to exactly the bytes
`60 1D A1 09 06 07 60 85 74 05 08 01 01 BE 10 04 0E 01 00 00 00 06 5F 1F
04 00 00 18 1F 01 00`, leaving the settings unchanged. -/
theorem encodeAARQ_noAuth_exact_bytes :
    ∀ cf : CipherFn,
      EncodeAARQ cf NewSettingsWithoutAuthentication =
        (.ok expectedAarqNoAuth, NewSettingsWithoutAuthentication) :=
  fun _ => rfl

/-- C4 counterexample: a settings value with `SecurityNone` (so the
association uses no ciphering) but a configured system title makes
`generateApplicationContextName` emit an application-context OID whose
final octet is 3, not 1 — the final octet is not determined by whether
cryptographic protection is enabled. -/
theorem applicationContextName_oid_not_determined_by_ciphering :
    noCipherWithTitleSettings.Ciphering.Security = SecurityNone ∧
    (generateApplicationContextName noCipherWithTitleSettings).getD 10 0 = 3 :=
  by decide

/-- C4 (amended): the final octet of the application-context-name OID
(the byte at index 10 of `generateApplicationContextName`) is 1 exactly
when the security is `SecurityNone` and no system title is configured,
and 3 otherwise — it also depends on the system title, not only on
whether cryptographic protection is enabled. -/
theorem applicationContextName_oid_final_octet (s : Settings) :
    (generateApplicationContextName s).getD 10 0 =
      if s.Ciphering.Security = SecurityNone ∧
          s.Ciphering.SystemTitle.length = 0
      then 1 else 3 := by
  simp only [generateApplicationContextName, List.cons_append, List.nil_append,
    List.append_assoc]
  by_cases h : s.Ciphering.Security = SecurityNone ∧
      s.Ciphering.SystemTitle.length = 0 <;>
    simp [h, List.getD]

set_option maxRecDepth 4000 in
/-- C10: every successful `EncodeAARQ` output carries, at index 1, the
single length byte `(len(out) - 2) mod 256`; when the body fits in 255
bytes this is exact, and the 260-byte-password settings produce a
306-byte body whose emitted length byte silently wraps to 50. -/
theorem encodeAARQ_length_byte_wraps :
    (∀ (cf : CipherFn) (s : Settings) (out : Bytes) (s' : Settings),
      EncodeAARQ cf s = (.ok out, s') →
      out.getD 1 0 = (out.length - 2) % 256 ∧
      (out.length - 2 ≤ 255 → out.getD 1 0 = out.length - 2)) ∧
    (∃ out : Bytes, (EncodeAARQ cipherId longPasswordSettings).1 = .ok out ∧
      out.length - 2 = 306 ∧ out.getD 1 0 = 50 ∧
      out.getD 1 0 ≠ out.length - 2) := by
  constructor
  · intro cf s out s' h
    have hb := encodeAARQ_ok_length_byte cf s out s' h
    exact ⟨hb, fun hle => by
      rw [hb]; exact Nat.mod_eq_of_lt (by omega)⟩
  · exact ⟨_, rfl, by decide, by decide, by decide⟩

/-- C10 witness: the no-authentication AARQ (31 bytes) has `29 = 0x1D`
at index 1, which equals its length minus 2 both modulo 256 and
exactly. -/
theorem encodeAARQ_length_byte_wraps_witness :
    expectedAarqNoAuth.getD 1 0 = (expectedAarqNoAuth.length - 2) % 256 ∧
    expectedAarqNoAuth.getD 1 0 = expectedAarqNoAuth.length - 2 := by
  have h := encodeAARQ_length_byte_wraps.1 cipherId
    NewSettingsWithoutAuthentication expectedAarqNoAuth
    NewSettingsWithoutAuthentication rfl
  exact ⟨h.1, h.2 (by decide)⟩

/-- C5: `AttributeDescriptor.Encode` always succeeds and always returns
exactly 9 bytes (2-byte big-endian class id, 6 OBIS bytes, 1 attribute
byte); `DecodeAttributeDescriptor` rejects every buffer shorter than 9
bytes with an error, leaving the caller's buffer unchanged. -/
theorem attributeDescriptor_encode9_and_decode_short_rejected :
    (∀ ad : AttributeDescriptor, ∃ out, ad.Encode = .ok out ∧
      out.length = 9) ∧
    (∀ src : Bytes, src.length < 9 →
      ∃ e, DecodeAttributeDescriptor src = (.error e, src)) := by
  constructor
  · intro ad
    exact ⟨_, rfl, rfl⟩
  · intro src h
    exact ⟨"byte slice length must be at least 9 bytes",
      by simp only [DecodeAttributeDescriptor, if_pos h]⟩

/-- C5 witness: the descriptor `(8, 0.0.1.0.0.255, 2)` encodes to 9
bytes, and the 3-byte buffer `[1, 2, 3]` is rejected unchanged. -/
theorem attributeDescriptor_encode9_witness :
    (∃ out, (AttributeDescriptor.Encode ⟨8, ⟨0, 0, 1, 0, 0, 255⟩, 2⟩) =
      .ok out ∧ out.length = 9) ∧
    ([1, 2, 3] : Bytes).length < 9 ∧
    (∃ e, DecodeAttributeDescriptor [1, 2, 3] = (.error e, [1, 2, 3])) :=
  ⟨attributeDescriptor_encode9_and_decode_short_rejected.1
      ⟨8, ⟨0, 0, 1, 0, 0, 255⟩, 2⟩,
   by decide,
   attributeDescriptor_encode9_and_decode_short_rejected.2 [1, 2, 3]
      (by decide)⟩

/-- Helper for C3, after a success (`isSomethingDone = true`) and
without the opt-in: the loop returns `ErrorSetPartial` exactly when a
set failure is reached before any descriptor error. -/
theorem setStructLoop_noOptIn_done
    (fields : List FieldStep) :
    returnsCode .ErrorSetPartial (setStructLoop false fields none true false) =
      specFailAfterSuccess fields := by
  induction fields with
  | nil => rfl
  | cons step rest ih =>
    cases step with
    | descriptorError msg => rfl
    | skipped => exact ih
    | setOk => exact ih
    | setFail e =>
      simp only [setStructLoop, Bool.and_false, Bool.if_false_left]
      rfl

/-- Helper for C3, before any success and without the opt-in: the loop
returns `ErrorSetPartial` exactly when the first set failure comes after
a successful set (with no descriptor error before), provided no field
error itself carries `ErrorSetPartial`. -/
theorem setStructLoop_noOptIn_notDone
    (fields : List FieldStep)
    (hwf : ∀ step ∈ fields, stepNeverSetPartial step = true) :
    returnsCode .ErrorSetPartial (setStructLoop false fields none false false) =
      specSetPartialNoOptIn fields := by
  induction fields with
  | nil => rfl
  | cons step rest ih =>
    cases step with
    | descriptorError msg => rfl
    | skipped =>
      exact ih fun s hs => hwf s (List.mem_cons_of_mem _ hs)
    | setOk =>
      exact setStructLoop_noOptIn_done rest
    | setFail e =>
      have he : stepNeverSetPartial (.setFail e) = true :=
        hwf _ (List.mem_cons_self _ _)
      simp only [setStructLoop, Bool.and_false, Bool.if_false_left,
        if_neg (by exact fun h => h)]
      simp only [stepNeverSetPartial, Bool.not_eq_true'] at he
      simp [returnsCode, specSetPartialNoOptIn, he]

/-- C3 counterexample: with the opt-in disabled
(`continueOnSetRejected = false`), a bulk Set whose first field succeeds
and whose second field is rejected returns an error whose code is
`ErrorSetPartial` — the claim that `SetPartial` is surfaced only under
the opt-in is false. -/
theorem setPartial_surfaced_without_optin :
    returnsCode .ErrorSetPartial
      (SetRequestWithStructOfElements
        [.setOk, .setFail (NewError .ErrorSetRejected "set rejected")]
        false) = true := by
  decide

/-- C3 (amended): `ErrorSetPartial` is not an opt-in-only error.  With
`continueOnSetRejected = false`, `SetRequestWithStructOfElements`
returns an `ErrorSetPartial` error exactly when the first failing set
is preceded by at least one successful set and by no descriptor error
(the failure then aborts the loop wrapped as a partial-set error);
`stepNeverSetPartial` records that the per-field operations themselves
never produce that code. -/
theorem setPartial_without_optin_characterised
    (fields : List FieldStep)
    (hwf : ∀ step ∈ fields, stepNeverSetPartial step = true) :
    returnsCode .ErrorSetPartial
        (SetRequestWithStructOfElements fields false) =
      specSetPartialNoOptIn fields :=
  setStructLoop_noOptIn_notDone fields hwf

set_option maxHeartbeats 1600000 in
/-- C6: for every `DlmsData` whose payload variant does not match its
declared tag (the `ok` of the Go type switch, recorded by
`tagMatches`), `Encode` panics — it never silently produces bytes.  (In
this code base the signalling is the panic path of the design note; no
byte output is ever returned for a mismatch.) -/
theorem encode_mismatch_never_silent (d : DlmsData)
    (h : tagMatches d.Tag d.Value = false) :
    ∃ msg, d.Encode = .panicked msg := by
  obtain ⟨t, v⟩ := d
  cases t <;> cases v <;> first
    | exact Bool.noConfusion h
    | exact ⟨_, rfl⟩

/-- C6 witness: a boolean-tagged value carrying a string payload is a
mismatch and `Encode` panics on it. -/
theorem encode_mismatch_never_silent_witness :
    tagMatches (DlmsData.mk .TagBoolean (.VString "12")).Tag
      (DlmsData.mk .TagBoolean (.VString "12")).Value = false ∧
    ∃ msg, (DlmsData.mk .TagBoolean (.VString "12")).Encode =
      .panicked msg :=
  ⟨rfl, encode_mismatch_never_silent (.mk .TagBoolean (.VString "12")) rfl⟩

/-- C9: for every tag — `TagNull` and `TagDontCare` included, although
their wire encodings read no payload — `Encode` of a `DlmsData` with a
nil `Value` panics with `Value to encode cannot be nil`; no nil-valued
`DlmsData` encodes normally. -/
theorem encode_nil_value_always_panics (t : dataTag) :
    (DlmsData.mk t .VNil).Encode =
      .panicked "Value to encode cannot be nil" := by
  cases t <;> rfl

/-- C7: whenever `DecodeSelectiveAccessDescriptor` fails — in
particular on every buffer whose inner length field claims more bytes
than the buffer holds, since the inner decode then errors — the
caller's buffer comes back at its original position and length; and
the poisoned entry buffer of the source test does fail, with the
buffer unchanged. -/
theorem decodeSAD_failure_leaves_buffer :
    (∀ (src buf : Bytes) (e : String),
      DecodeSelectiveAccessDescriptor src = (.error e, buf) → buf = src) ∧
    (∃ e, DecodeSelectiveAccessDescriptor poisonedEntryBuffer =
      (.error e, poisonedEntryBuffer)) := by
  constructor
  · intro src buf e h
    cases src with
    | nil => exact ((Prod.mk.inj h).2).symm
    | cons selector rest =>
      cases hd : decodeDlmsData rest with
      | error e₁ =>
        simp only [DecodeSelectiveAccessDescriptor, hd] at h
        exact ((Prod.mk.inj h).2).symm
      | ok pr =>
        obtain ⟨d, remaining⟩ := pr
        simp only [DecodeSelectiveAccessDescriptor, hd] at h
        exact absurd (congrArg Prod.fst h) (by simp)
  · exact ⟨"UnknownTag", rfl⟩

/-- C7 witness: applying the non-mutation statement to the poisoned
entry buffer, whose decode fails with `UnknownTag` leaving the buffer
in place. -/
theorem decodeSAD_failure_leaves_buffer_witness :
    poisonedEntryBuffer = poisonedEntryBuffer ∧
    DecodeSelectiveAccessDescriptor poisonedEntryBuffer =
      (.error "UnknownTag", poisonedEntryBuffer) :=
  ⟨decodeSAD_failure_leaves_buffer.1 poisonedEntryBuffer
    poisonedEntryBuffer "UnknownTag" rfl, rfl⟩

/-- C8: the Entry descriptor for entries 0 … 5 encodes to exactly
`02 02 04 06 00 00 00 00 06 00 00 00 05 12 00 00 12 00 00`, and the
Range descriptor for 2020-01-01 10:00:00 UTC … 2020-01-01 11:00:00 UTC
(both Wednesdays, DLMS weekday 3) encodes to exactly
`01 02 04 02 04 12 00 08 09 06 00 00 01 00 00 FF 0F 02 12 00 00 09 0C
07 E4 01 01 03 0A 00 00 00 00 00 00 09 0C 07 E4 01 01 03 0B 00 00 00
00 00 00 01 00`. -/
theorem selectiveAccess_encode_vectors :
    (CreateSelectiveAccessDescriptorEntry [0, 5]).Encode =
      .ok expectedEntryBytes ∧
    (CreateSelectiveAccessDescriptorRange
      [⟨2020, 1, 1, 3, 10, 0, 0⟩, ⟨2020, 1, 1, 3, 11, 0, 0⟩]).Encode =
      .ok expectedRangeBytes :=
  ⟨rfl, rfl⟩

/-- C3 witness: on the two-field run (a success, then a rejection) the
characterisation applies and yields `true`. -/
theorem setPartial_without_optin_witness :
    (∀ step ∈ ([.setOk,
        .setFail (NewError .ErrorSetRejected "set rejected")] :
          List FieldStep),
      stepNeverSetPartial step = true) ∧
    returnsCode .ErrorSetPartial
        (SetRequestWithStructOfElements
          [.setOk, .setFail (NewError .ErrorSetRejected "set rejected")]
          false) =
      specSetPartialNoOptIn
        [.setOk, .setFail (NewError .ErrorSetRejected "set rejected")] :=
  ⟨by decide,
   setPartial_without_optin_characterised _ (by decide)⟩

end Gosem
